import Mathlib

/-!
# Verification of the copilot-sdk example tool validators and RPC wrappers

Shallow embedding of the example agent tool handlers
(`agents/devops-agent/examples/nodejs.ts`, the hardened variant shipped in
`agents/customer-support-agent/README.md`, and
`agents/data-analyst-agent/examples/nodejs.ts`) and of the generated
session-scoped RPC wrapper classes, together with proofs of the documented
validation and invariant properties.

JavaScript strings are modelled as Lean `String`s (operated on through their
`List Char` data so that everything reduces in the kernel), JS numbers (always
finite in the scenarios considered) as rationals `ℚ`, and each asynchronous
handler as a total function into an outcome type that records either the
structured `{error: ...}` result or the external action (shell / execFile
invocation, file read) the handler performs.
-/

namespace CopilotSdk

/-! ## JS string primitives -/

/-- Characters JS `trim` / `\s` treat as whitespace (ASCII fragment; the
examples only ever meet ASCII input). -/
def jsIsSpace (c : Char) : Bool := c.isWhitespace

/-- JS `s.trim()`: drop whitespace from both ends. -/
def jsTrim (s : String) : String :=
  ⟨(((s.data.dropWhile jsIsSpace).reverse.dropWhile jsIsSpace)).reverse⟩

/-- JS `s.startsWith(p)`. -/
def jsStartsWith (s p : String) : Bool := p.data.isPrefixOf s.data

/-- JS `s.endsWith(p)`. -/
def jsEndsWith (s p : String) : Bool := p.data.isSuffixOf s.data

/-- Substring containment on char lists, mirroring JS `String.prototype.includes`. -/
def listContainsSub (sub : List Char) : List Char → Bool
  | [] => sub.isEmpty
  | c :: cs => sub.isPrefixOf (c :: cs) || listContainsSub sub cs

/-- JS `s.includes(sub)`. -/
def jsIncludes (s sub : String) : Bool := listContainsSub sub.data s.data

/-- JS `s.toUpperCase()` (ASCII). -/
def jsToUpper (s : String) : String := ⟨s.data.map Char.toUpper⟩

/-- JS `s.toLowerCase()` (ASCII). -/
def jsToLower (s : String) : String := ⟨s.data.map Char.toLower⟩

/-- Maximal runs of non-whitespace characters (`cur` accumulates the current
token reversed): JS `s.split(/\s+/).filter(Boolean)` produces exactly these. -/
def wsTokensAux (cur : List Char) : List Char → List (List Char)
  | [] => if cur = [] then [] else [cur.reverse]
  | c :: cs =>
      if jsIsSpace c then
        if cur = [] then wsTokensAux [] cs else cur.reverse :: wsTokensAux [] cs
      else
        wsTokensAux (c :: cur) cs

/-- JS `command.trim().split(/\s+/).filter(Boolean)`. -/
def splitArgs (command : String) : List String :=
  (wsTokensAux [] (jsTrim command).data).map (fun t => ⟨t⟩)

/-! ## Validation patterns (`agents/customer-support-agent/README.md`) -/

/-- `[a-z0-9]`: ASCII lowercase letter or digit. -/
def isLowerAlnum (c : Char) : Bool := (('a' ≤ c) && (c ≤ 'z')) || c.isDigit

/-- The K8S name regex `^[a-z0-9]([a-z0-9-]*[a-z0-9])?$` (`K8S_NAME_PATTERN`):
nonempty, every char in `[a-z0-9-]`, first and last char in `[a-z0-9]`. -/
def k8sNamePattern (s : String) : Bool :=
  match s.data with
  | [] => false
  | c :: cs =>
      isLowerAlnum c &&
      (c :: cs).all (fun d => isLowerAlnum d || d == '-') &&
      isLowerAlnum ((c :: cs).getLast (by simp))

/-- The duration regex `^[0-9]+(h|m|s)$` (`DURATION_PATTERN`): one or more
digits followed by exactly one of h, m, s. -/
def durationPattern (s : String) : Bool :=
  match s.data with
  | [] => false
  | c :: cs =>
      let unit := (c :: cs).getLast (by simp)
      (unit == 'h' || unit == 'm' || unit == 's') &&
      (c :: cs).dropLast ≠ [] &&
      ((c :: cs).dropLast).all Char.isDigit

/-- Outcome of a tool handler that may shell out: a structured `{error}` result,
a `child_process.exec` shell-command invocation, or a `child_process.execFile`
argv invocation. -/
inductive ExecOutcome where
  | error (msg : String)
  | shell (cmd : String)
  | argv (file : String) (args : List String)
deriving DecidableEq

/-- `ExecOutcome` is a structured error result. -/
def ExecOutcome.isError : ExecOutcome → Bool
  | .error _ => true
  | _ => false

/-! ## `run_kubectl` (DevOps example, `agents/devops-agent/examples/nodejs.ts`) -/

def ALLOWED_KUBECTL_PREFIXES : List String := ["get", "describe", "logs", "top", "rollout"]

/-- Handler of the `run_kubectl` tool in the DevOps example: allows the command
when the trimmed string *starts with* one of the allowed strings, then runs
`kubectl <trimmed>` through the shell. -/
def runKubectlDevops (command : String) : ExecOutcome :=
  let trimmed := jsTrim command
  let isAllowed := ALLOWED_KUBECTL_PREFIXES.any (fun p => jsStartsWith trimmed p)
  if !isAllowed then
    .error "Only read-only kubectl commands are permitted. Allowed: get, describe, logs, top, rollout"
  else
    .shell ("kubectl " ++ trimmed)

/-! ## `run_kubectl` (hardened variant, `agents/customer-support-agent/README.md`) -/

def ALLOWED_KUBECTL_SUBCOMMANDS : List String := ["get", "describe", "logs", "top", "rollout"]

/-- Handler of the hardened `run_kubectl` tool: splits the command into
whitespace-delimited args and requires the first token to *equal* one of the
allowed subcommands, then runs `execFile("kubectl", args)`. -/
def runKubectlHardened (command : String) : ExecOutcome :=
  let args := splitArgs command
  if args = [] then
    .error "No command provided"
  else
    let subcommand := args.headD ""
    let isAllowed := ALLOWED_KUBECTL_SUBCOMMANDS.any (fun p => subcommand == p)
    if !isAllowed then
      .error "Only read-only kubectl commands are permitted. Allowed: get, describe, logs, top, rollout"
    else
      .argv "kubectl" args

/-- The leading verb of a kubectl command string: its first whitespace-delimited
token. -/
def leadingVerb (command : String) : String := (splitArgs command).headD ""

/-! ## `fetch_logs` -/

/-- Arguments of the `fetch_logs` tool (defaults as declared in its JSON
schema). JS numbers are modelled as rationals. -/
structure FetchLogsArgs where
  service : String
  ns : String := "production"
  lines : ℚ := 100
  since : String := "1h"
deriving DecidableEq

/-- Rendering of a JS number into a template string; the examples only ever
render integral values, for which JS prints the plain decimal digits. -/
def jsNumToString (q : ℚ) : String := if q.den = 1 then toString q.num else toString q

/-- Handler of `fetch_logs` in the DevOps example: no validation; interpolates
all four arguments into a shell command. -/
def fetchLogsDevops (a : FetchLogsArgs) : ExecOutcome :=
  .shell ("kubectl logs -l app=" ++ a.service ++ " -n " ++ a.ns ++
          " --tail=" ++ jsNumToString a.lines ++ " --since=" ++ a.since)

/-- Handler of the hardened `fetch_logs` tool: validates `service` and
`namespace` against `K8S_NAME_PATTERN` and `since` against `DURATION_PATTERN`,
clamps `lines` to `[1, 1000]` with `Math.max(1, Math.min(1000,
Math.floor(Number(lines))))`, then runs `execFile("kubectl", [...])`. -/
def fetchLogsHardened (a : FetchLogsArgs) : ExecOutcome :=
  if !k8sNamePattern a.service then
    .error "Invalid service name. Use lowercase alphanumeric characters and hyphens only."
  else if !k8sNamePattern a.ns then
    .error "Invalid namespace. Use lowercase alphanumeric characters and hyphens only."
  else if !durationPattern a.since then
    .error "Invalid duration format. Use a value like 1h, 30m, or 2h."
  else
    let safeLines : ℤ := max 1 (min 1000 ⌊a.lines⌋)
    .argv "kubectl" ["logs", "-l", "app=" ++ a.service, "-n", a.ns,
                     "--tail=" ++ toString safeLines, "--since=" ++ a.since]

/-! ## `run_sql_query` (`agents/data-analyst-agent/examples/nodejs.ts`) -/

/-- Outcome of the `run_sql_query` handler. After validation the handler either
returns canned simulated rows (no `DATABASE_URL`) or the placeholder error
asking for a real database client; it never actually executes a query. -/
inductive SqlOutcome where
  | error (msg : String)
  | simulatedRows
deriving DecidableEq

/-- Handler of `run_sql_query`: requires the trimmed upper-cased query to start
with SELECT or WITH and the raw query to be semicolon-free. -/
def runSqlQuery (sql : String) (dbUrl : Option String) : SqlOutcome :=
  let normalized := jsToUpper (jsTrim sql)
  if !(jsStartsWith normalized "SELECT") && !(jsStartsWith normalized "WITH") then
    .error "Only SELECT queries are permitted"
  else if jsIncludes sql ";" then
    .error "Semicolons are not permitted in queries"
  else
    match dbUrl with
    | none => .simulatedRows
    | some _ => .error "Connect a database client here (e.g. pg, mysql2)"

/-! ## `load_csv` (`agents/data-analyst-agent/examples/nodejs.ts`)

Node `path.posix` resolution, modelled segment by segment. -/

/-- Node `path.posix.isAbsolute`. -/
def isAbsolutePath (p : String) : Bool := jsStartsWith p "/"

/-- Split on `/`, keeping empty segments (like `String.splitOn "/"`). -/
def slashSplitAux (cur : List Char) : List Char → List String
  | [] => [⟨cur.reverse⟩]
  | c :: cs => if c = '/' then ⟨cur.reverse⟩ :: slashSplitAux [] cs
               else slashSplitAux (c :: cur) cs

def slashSplit (s : String) : List String := slashSplitAux [] s.data

/-- Segment normalization of an absolute posix path (`acc` holds the processed
segments reversed): empty and `.` segments are dropped, `..` pops the previous
segment (and is dropped at the root). -/
def normSegs (acc : List String) : List String → List String
  | [] => acc.reverse
  | seg :: rest =>
      if seg = "" ∨ seg = "." then normSegs acc rest
      else if seg = ".." then normSegs (acc.drop 1) rest
      else normSegs (seg :: acc) rest

/-- Node `path.posix.resolve` applied to a single absolute path: normalize,
yielding an absolute path without trailing slash. -/
def resolveAbs (s : String) : String :=
  "/" ++ String.intercalate "/" (normSegs [] (slashSplit s))

/-- Node `path.posix.resolve(cwd, p)` for an absolute `cwd`. -/
def posixResolve (cwd p : String) : String :=
  if isAbsolutePath p then resolveAbs p else resolveAbs (cwd ++ "/" ++ p)

/-- Environment the `load_csv` handler reads: `process.env.DATA_DIR` and
`process.cwd()` (the latter always absolute). -/
structure LoadCsvEnv where
  dataDirEnv : Option String
  cwd : String
deriving DecidableEq

/-- Outcome of `load_csv`: a structured error, or the handler reaches
`readFileSync(resolvedPath)` (the subsequent CSV parsing is outside the
claims). -/
inductive CsvOutcome where
  | error (msg : String)
  | readCsv (path : String)
deriving DecidableEq

def CsvOutcome.isError : CsvOutcome → Bool
  | .error _ => true
  | _ => false

/-- `path.sep` on posix. -/
def pathSep : String := "/"

/-- Handler of `load_csv`: rejects absolute paths, paths containing `..`, and
non-`.csv` suffixes; resolves against the data directory and rejects any
resolution that escapes it, before any file read. -/
def loadCsv (file_path : String) (env : LoadCsvEnv) : CsvOutcome :=
  if isAbsolutePath file_path || jsIncludes file_path ".." then
    .error "Invalid file path. Only relative paths within the data directory are allowed."
  else if !(jsEndsWith (jsToLower file_path) ".csv") then
    .error "Only .csv files are supported."
  else
    let dataDir := env.dataDirEnv.getD env.cwd
    let resolvedDataDir := posixResolve env.cwd dataDir
    let resolvedPath := posixResolve resolvedDataDir file_path
    if !(jsStartsWith resolvedPath (resolvedDataDir ++ pathSep)) && resolvedPath != resolvedDataDir then
      .error "Access outside of the data directory is not allowed."
    else
      .readCsv resolvedPath

/-! ## `compute_stats` (`agents/data-analyst-agent/examples/nodejs.ts`) -/

/-- JS `[...data].sort((a, b) => a - b)`: ascending numeric sort (insertion
sort; the comparator is a total order so any ascending sort is faithful). -/
def insertSorted (x : ℚ) : List ℚ → List ℚ
  | [] => [x]
  | y :: ys => if x ≤ y then x :: y :: ys else y :: insertSorted x ys

def sortAsc (l : List ℚ) : List ℚ := l.foldr insertSorted []

/-- `Math.round(x * 100) / 100` (`Math.round` rounds half toward positive
infinity). -/
def jsRound2 (x : ℚ) : ℚ := (⌊x * 100 + 1/2⌋ : ℚ) / 100

/-- Result object of `compute_stats`. The source also carries
`std_dev = Math.round(Math.sqrt(variance) * 100) / 100`; the square root is
not rational, so the embedding keeps the `variance` it is computed from. -/
structure Stats where
  column : String
  count : Nat
  min : ℚ
  max : ℚ
  mean : ℚ
  median : ℚ
  variance : ℚ
  p25 : ℚ
  p75 : ℚ
deriving DecidableEq

inductive StatsOutcome where
  | error (msg : String)
  | ok (s : Stats)
deriving DecidableEq

/-- Handler of `compute_stats`: rejects an empty array, otherwise sorts and
computes descriptive statistics (`sorted[i] ?? 0` becomes `getD i 0`;
`Math.floor(n * 0.25)` and `Math.floor(n * 0.75)` are the integer divisions
`n / 4` and `3 * n / 4`). -/
def computeStats (data : List ℚ) (column_name : String := "value") : StatsOutcome :=
  if data.length = 0 then .error "Empty array"
  else
    let sorted := sortAsc data
    let n := sorted.length
    let sum := sorted.foldl (fun a b => a + b) 0
    let mean := sum / (n : ℚ)
    let variance := sorted.foldl (fun a b => a + (b - mean) ^ 2) 0 / (n : ℚ)
    let median :=
      if n % 2 = 0 then ((sorted.getD (n / 2 - 1) 0) + (sorted.getD (n / 2) 0)) / 2
      else sorted.getD (n / 2) 0
    .ok { column := column_name, count := n,
          min := sorted.getD 0 0, max := sorted.getD (n - 1) 0,
          mean := jsRound2 mean, median := jsRound2 median,
          variance := variance,
          p25 := sorted.getD (n / 4) 0, p75 := sorted.getD (3 * n / 4) 0 }

/-! ## Custom agent selection (`session.agent.*`) -/

/-- The `Agent` DTO (name, displayName, description). -/
structure Agent where
  name : String
  displayName : String
  description : String
deriving DecidableEq

/-- Modelled from the spec: the per-session agent-selection state lives inside
the external Copilot CLI (out of scope of this repository; only the e2e tests
and the generated wrappers are in the source tree). A session configured with
custom agents holds the configured list and an optional current selection,
initially empty. -/
structure AgentSessionState where
  agents : List Agent
  current : Option Agent
deriving DecidableEq

/-- Modelled from the spec: `session.agent.select` picks the configured custom
agent with the given name, makes it current, and returns it; an unknown name
fails. -/
def selectAgent (st : AgentSessionState) (n : String) :
    Except String (Agent × AgentSessionState) :=
  match st.agents.find? (fun a => a.name == n) with
  | some a => .ok (a, { st with current := some a })
  | none => .error "agent not found"

/-- Modelled from the spec: `session.agent.getCurrent` returns the current
selection, `null` when none. -/
def getCurrentAgent (st : AgentSessionState) : Option Agent := st.current

/-- Modelled from the spec: `session.agent.deselect` clears the selection. -/
def deselectAgent (st : AgentSessionState) : AgentSessionState :=
  { st with current := none }

/-! ## Generated session-scoped RPC wrappers

Embedding of the generated wrapper classes (`SessionRpc` and its sub-APIs) as
they appear in the generated client source: each sub-API holds the transport
handle and the session identifier fixed at construction, and each method
builds a request DTO carrying that identifier. A method is modelled as a pure
function returning the request payload it sends together with the (unchanged)
wrapper, making the absence of client-side mutation a provable statement. -/

/-- Opaque transport handle (`JsonRpc`). -/
structure RpcHandle where
  id : Nat
deriving DecidableEq

/-- Session mode enum (interactive/plan/autopilot). -/
inductive SessionMode where
  | interactive
  | plan
  | autopilot
deriving DecidableEq

structure SessionModelGetCurrentRequest where
  sessionId : String
deriving DecidableEq

structure SessionModelSwitchToRequest where
  sessionId : String
  modelId : String
deriving DecidableEq

structure SessionModeGetRequest where
  sessionId : String
deriving DecidableEq

structure SessionModeSetRequest where
  sessionId : String
  mode : SessionMode
deriving DecidableEq

structure SessionPlanReadRequest where
  sessionId : String
deriving DecidableEq

structure SessionPlanUpdateRequest where
  sessionId : String
  content : String
deriving DecidableEq

structure SessionPlanDeleteRequest where
  sessionId : String
deriving DecidableEq

structure SessionWorkspaceListFilesRequest where
  sessionId : String
deriving DecidableEq

structure SessionWorkspaceReadFileRequest where
  sessionId : String
  path : String
deriving DecidableEq

structure SessionWorkspaceCreateFileRequest where
  sessionId : String
  path : String
  content : String
deriving DecidableEq

structure SessionFleetStartRequest where
  sessionId : String
  prompt : Option String
deriving DecidableEq

structure SessionAgentListRequest where
  sessionId : String
deriving DecidableEq

structure SessionAgentGetCurrentRequest where
  sessionId : String
deriving DecidableEq

structure SessionAgentSelectRequest where
  sessionId : String
  name : String
deriving DecidableEq

structure SessionAgentDeselectRequest where
  sessionId : String
deriving DecidableEq

structure SessionCompactionCompactRequest where
  sessionId : String
deriving DecidableEq

structure ModelApi where
  rpc : RpcHandle
  sessionId : String
deriving DecidableEq

structure ModeApi where
  rpc : RpcHandle
  sessionId : String
deriving DecidableEq

structure PlanApi where
  rpc : RpcHandle
  sessionId : String
deriving DecidableEq

structure WorkspaceApi where
  rpc : RpcHandle
  sessionId : String
deriving DecidableEq

structure FleetApi where
  rpc : RpcHandle
  sessionId : String
deriving DecidableEq

structure AgentApi where
  rpc : RpcHandle
  sessionId : String
deriving DecidableEq

structure CompactionApi where
  rpc : RpcHandle
  sessionId : String
deriving DecidableEq

/-- The `SessionRpc` wrapper: holds the transport handle, the session
identifier fixed at construction, and the seven sub-APIs built from them. -/
structure SessionRpc where
  rpc : RpcHandle
  sessionId : String
  model : ModelApi
  mode : ModeApi
  plan : PlanApi
  workspace : WorkspaceApi
  fleet : FleetApi
  agent : AgentApi
  compaction : CompactionApi
deriving DecidableEq

/-- The `SessionRpc` constructor: every sub-API receives the same transport
handle and session identifier. -/
def SessionRpc.make (rpc : RpcHandle) (sessionId : String) : SessionRpc :=
  { rpc := rpc, sessionId := sessionId,
    model := ⟨rpc, sessionId⟩, mode := ⟨rpc, sessionId⟩, plan := ⟨rpc, sessionId⟩,
    workspace := ⟨rpc, sessionId⟩, fleet := ⟨rpc, sessionId⟩,
    agent := ⟨rpc, sessionId⟩, compaction := ⟨rpc, sessionId⟩ }

/-- Calls `session.model.getCurrent`. -/
def ModelApi.getCurrent (a : ModelApi) : SessionModelGetCurrentRequest × ModelApi :=
  ({ sessionId := a.sessionId }, a)

/-- Calls `session.model.switchTo`. -/
def ModelApi.switchTo (a : ModelApi) (modelId : String) :
    SessionModelSwitchToRequest × ModelApi :=
  ({ sessionId := a.sessionId, modelId := modelId }, a)

/-- Calls `session.mode.get`. -/
def ModeApi.get (a : ModeApi) : SessionModeGetRequest × ModeApi :=
  ({ sessionId := a.sessionId }, a)

/-- Calls `session.mode.set`. -/
def ModeApi.set (a : ModeApi) (mode : SessionMode) : SessionModeSetRequest × ModeApi :=
  ({ sessionId := a.sessionId, mode := mode }, a)

/-- Calls `session.plan.read`. -/
def PlanApi.read (a : PlanApi) : SessionPlanReadRequest × PlanApi :=
  ({ sessionId := a.sessionId }, a)

/-- Calls `session.plan.update`. -/
def PlanApi.update (a : PlanApi) (content : String) : SessionPlanUpdateRequest × PlanApi :=
  ({ sessionId := a.sessionId, content := content }, a)

/-- Calls `session.plan.delete`. -/
def PlanApi.delete (a : PlanApi) : SessionPlanDeleteRequest × PlanApi :=
  ({ sessionId := a.sessionId }, a)

/-- Calls `session.workspace.listFiles`. -/
def WorkspaceApi.listFiles (a : WorkspaceApi) : SessionWorkspaceListFilesRequest × WorkspaceApi :=
  ({ sessionId := a.sessionId }, a)

/-- Calls `session.workspace.readFile`. -/
def WorkspaceApi.readFile (a : WorkspaceApi) (path : String) :
    SessionWorkspaceReadFileRequest × WorkspaceApi :=
  ({ sessionId := a.sessionId, path := path }, a)

/-- Calls `session.workspace.createFile`. -/
def WorkspaceApi.createFile (a : WorkspaceApi) (path content : String) :
    SessionWorkspaceCreateFileRequest × WorkspaceApi :=
  ({ sessionId := a.sessionId, path := path, content := content }, a)

/-- Calls `session.fleet.start`. -/
def FleetApi.start (a : FleetApi) (prompt : Option String) :
    SessionFleetStartRequest × FleetApi :=
  ({ sessionId := a.sessionId, prompt := prompt }, a)

/-- Calls `session.agent.list`. -/
def AgentApi.list (a : AgentApi) : SessionAgentListRequest × AgentApi :=
  ({ sessionId := a.sessionId }, a)

/-- Calls `session.agent.getCurrent`. -/
def AgentApi.getCurrent (a : AgentApi) : SessionAgentGetCurrentRequest × AgentApi :=
  ({ sessionId := a.sessionId }, a)

/-- Calls `session.agent.select`. -/
def AgentApi.select (a : AgentApi) (name : String) : SessionAgentSelectRequest × AgentApi :=
  ({ sessionId := a.sessionId, name := name }, a)

/-- Calls `session.agent.deselect`. -/
def AgentApi.deselect (a : AgentApi) : SessionAgentDeselectRequest × AgentApi :=
  ({ sessionId := a.sessionId }, a)

/-- Calls `session.compaction.compact`. -/
def CompactionApi.compact (a : CompactionApi) : SessionCompactionCompactRequest × CompactionApi :=
  ({ sessionId := a.sessionId }, a)

end CopilotSdk

namespace CopilotSdk

example : durationPattern "1h" = true := by decide
example : durationPattern "2h30m" = false := by decide
example : durationPattern "30m" = true := by decide
example : durationPattern "h" = false := by decide
example : durationPattern "10" = false := by decide
example : k8sNamePattern "api-gateway" = true := by decide
example : k8sNamePattern "-api" = false := by decide
example : k8sNamePattern "api-" = false := by decide
example : k8sNamePattern "My_Service" = false := by decide
example : k8sNamePattern "" = false := by decide
example : runKubectlDevops "getfoo secrets" = .shell "kubectl getfoo secrets" := by decide
example : (runKubectlHardened "getfoo secrets").isError = true := by decide
example : runKubectlHardened "get pods -n production" = .argv "kubectl" ["get", "pods", "-n", "production"] := by decide
example : fetchLogsDevops { service := "api", since := "2h30m" } =
    .shell "kubectl logs -l app=api -n production --tail=100 --since=2h30m" := by decide
example : runSqlQuery "DROP TABLE users" none = .error "Only SELECT queries are permitted" := by decide
example : runSqlQuery "SELECT 1; DROP TABLE users" none =
    .error "Semicolons are not permitted in queries" := by decide
example : runSqlQuery "  select * from t" none = .simulatedRows := by decide
example : runSqlQuery "WITH t AS (SELECT 1) SELECT * FROM t" (some "postgres://x") =
    .error "Connect a database client here (e.g. pg, mysql2)" := by decide
example : resolveAbs "/data/./a//b/../c" = "/data/a/c" := by decide
example : posixResolve "/srv" "data" = "/srv/data" := by decide
example : loadCsv "/etc/passwd" ⟨some "/srv/data", "/srv"⟩ =
    .error "Invalid file path. Only relative paths within the data directory are allowed." := by decide
example : loadCsv "a/../../x.csv" ⟨some "/srv/data", "/srv"⟩ =
    .error "Invalid file path. Only relative paths within the data directory are allowed." := by decide
example : loadCsv "notes.txt" ⟨some "/srv/data", "/srv"⟩ =
    .error "Only .csv files are supported." := by decide
example : loadCsv "Sales.CSV" ⟨some "/srv/data", "/srv"⟩ = .readCsv "/srv/data/Sales.CSV" := by decide
example : loadCsv "reports/q1.csv" ⟨none, "/srv"⟩ = .readCsv "/srv/reports/q1.csv" := by decide

end CopilotSdk

namespace CopilotSdk

/-! ## Claim theorems -/

/-- C3: for every sql string passed to the `run_sql_query` handler, if the
trimmed upper-cased string does not start with SELECT or WITH, or the original
string contains a semicolon anywhere, the handler returns an error result (one
of the two validation messages, so the database section is never reached and no
query is executed). -/
theorem runSqlQuery_rejects_unsafe_input (sql : String) (dbUrl : Option String)
    (h : (jsStartsWith (jsToUpper (jsTrim sql)) "SELECT" = false ∧
          jsStartsWith (jsToUpper (jsTrim sql)) "WITH" = false) ∨
         jsIncludes sql ";" = true) :
    runSqlQuery sql dbUrl = .error "Only SELECT queries are permitted" ∨
    runSqlQuery sql dbUrl = .error "Semicolons are not permitted in queries" := by
  unfold runSqlQuery
  rcases h with ⟨h1, h2⟩ | h
  · left
    simp [h1, h2]
  · by_cases h1 : jsStartsWith (jsToUpper (jsTrim sql)) "SELECT"
    · right
      simp [h1, h]
    · by_cases h2 : jsStartsWith (jsToUpper (jsTrim sql)) "WITH"
      · right
        simp [h1, h2, h]
      · left
        simp [h1, h2]

/-- C3 witness: `"SELECT 1; DROP TABLE users"` contains a semicolon and is
rejected, `"DELETE FROM t"` does not start with SELECT/WITH and is rejected. -/
theorem runSqlQuery_rejects_unsafe_input_witness :
    (runSqlQuery "SELECT 1; DROP TABLE users" none = .error "Only SELECT queries are permitted" ∨
     runSqlQuery "SELECT 1; DROP TABLE users" none = .error "Semicolons are not permitted in queries") ∧
    (runSqlQuery "DELETE FROM t" none = .error "Only SELECT queries are permitted" ∨
     runSqlQuery "DELETE FROM t" none = .error "Semicolons are not permitted in queries") :=
  ⟨runSqlQuery_rejects_unsafe_input "SELECT 1; DROP TABLE users" none (Or.inr (by decide)),
   runSqlQuery_rejects_unsafe_input "DELETE FROM t" none (Or.inl (by decide))⟩

/-- C6: `compute_stats` on `[1,2,3,4,5]` returns mean 3, median 3, min 1,
max 5 (together with the remaining fields of the result object). -/
theorem computeStats_basic_example :
    computeStats [1, 2, 3, 4, 5] "value" =
      .ok { column := "value", count := 5, min := 1, max := 5, mean := 3, median := 3,
            variance := 2, p25 := 2, p75 := 4 } := by
  norm_num [computeStats, sortAsc, insertSorted, jsRound2, Int.floor_eq_iff]

end CopilotSdk

namespace CopilotSdk

/-- C8: in a session configured with custom agents, a successful
`session.agent.select` for the name `n` returns an agent named `n`, a
subsequent `session.agent.getCurrent` returns that agent, and after
`session.agent.deselect` the current agent is `null`. -/
theorem agent_select_getCurrent_deselect (st : AgentSessionState) (n : String)
    (a : Agent) (st' : AgentSessionState)
    (h : selectAgent st n = .ok (a, st')) :
    a.name = n ∧ getCurrentAgent st' = some a ∧
    getCurrentAgent (deselectAgent st') = none := by
  unfold selectAgent at h
  cases hf : st.agents.find? (fun x => x.name == n) with
  | none =>
      rw [hf] at h
      cases h
  | some a0 =>
      rw [hf] at h
      cases h
      have hp := List.find?_some hf
      refine ⟨by simpa using hp, rfl, rfl⟩

/-- C8 witness: selecting `test-agent` in a session configured with it. -/
theorem agent_select_getCurrent_deselect_witness :
    let a : Agent := ⟨"test-agent", "Test Agent", "A test agent"⟩
    a.name = "test-agent" ∧ getCurrentAgent ⟨[a], some a⟩ = some a ∧
    getCurrentAgent (deselectAgent ⟨[a], some a⟩) = none :=
  agent_select_getCurrent_deselect ⟨[⟨"test-agent", "Test Agent", "A test agent"⟩], none⟩
    "test-agent" ⟨"test-agent", "Test Agent", "A test agent"⟩
    ⟨[⟨"test-agent", "Test Agent", "A test agent"⟩],
      some ⟨"test-agent", "Test Agent", "A test agent"⟩⟩ rfl

/-- C9: every session-scoped RPC wrapper method puts the session identifier
fixed at construction into its request payload, and leaves the wrapper (the
only client-side state) unchanged. -/
theorem sessionRpc_payload_sessionId (rpc : RpcHandle) (sid : String)
    (modelId content path fileContent name : String) (m : SessionMode)
    (prompt : Option String) :
    let s := SessionRpc.make rpc sid
    ((s.model.getCurrent).1.sessionId = sid ∧ (s.model.getCurrent).2 = s.model) ∧
    ((s.model.switchTo modelId).1.sessionId = sid ∧ (s.model.switchTo modelId).2 = s.model) ∧
    ((s.mode.get).1.sessionId = sid ∧ (s.mode.get).2 = s.mode) ∧
    ((s.mode.set m).1.sessionId = sid ∧ (s.mode.set m).2 = s.mode) ∧
    ((s.plan.read).1.sessionId = sid ∧ (s.plan.read).2 = s.plan) ∧
    ((s.plan.update content).1.sessionId = sid ∧ (s.plan.update content).2 = s.plan) ∧
    ((s.plan.delete).1.sessionId = sid ∧ (s.plan.delete).2 = s.plan) ∧
    ((s.workspace.listFiles).1.sessionId = sid ∧ (s.workspace.listFiles).2 = s.workspace) ∧
    ((s.workspace.readFile path).1.sessionId = sid ∧
      (s.workspace.readFile path).2 = s.workspace) ∧
    ((s.workspace.createFile path fileContent).1.sessionId = sid ∧
      (s.workspace.createFile path fileContent).2 = s.workspace) ∧
    ((s.fleet.start prompt).1.sessionId = sid ∧ (s.fleet.start prompt).2 = s.fleet) ∧
    ((s.agent.list).1.sessionId = sid ∧ (s.agent.list).2 = s.agent) ∧
    ((s.agent.getCurrent).1.sessionId = sid ∧ (s.agent.getCurrent).2 = s.agent) ∧
    ((s.agent.select name).1.sessionId = sid ∧ (s.agent.select name).2 = s.agent) ∧
    ((s.agent.deselect).1.sessionId = sid ∧ (s.agent.deselect).2 = s.agent) ∧
    ((s.compaction.compact).1.sessionId = sid ∧ (s.compaction.compact).2 = s.compaction) :=
  ⟨⟨rfl, rfl⟩, ⟨rfl, rfl⟩, ⟨rfl, rfl⟩, ⟨rfl, rfl⟩, ⟨rfl, rfl⟩, ⟨rfl, rfl⟩, ⟨rfl, rfl⟩,
   ⟨rfl, rfl⟩, ⟨rfl, rfl⟩, ⟨rfl, rfl⟩, ⟨rfl, rfl⟩, ⟨rfl, rfl⟩, ⟨rfl, rfl⟩, ⟨rfl, rfl⟩,
   ⟨rfl, rfl⟩, ⟨rfl, rfl⟩⟩

end CopilotSdk

namespace CopilotSdk

/-- C1 counterexample: the repository ships two `fetch_logs` handlers. The
DevOps example's handler invokes kubectl with `--since=2h30m` although
`2h30m` does not match `^[0-9]+(h|m|s)$`; and the hardened handler rejects a
call whose `since` (`1h`) matches the pattern when the service name is
invalid, so a matching `since` alone does not imply kubectl is invoked. -/
theorem fetchLogs_since_claim_counterexample :
    durationPattern "2h30m" = false ∧
    fetchLogsDevops { service := "api", ns := "production", lines := 100, since := "2h30m" } =
      .shell "kubectl logs -l app=api -n production --tail=100 --since=2h30m" ∧
    durationPattern "1h" = true ∧
    (fetchLogsHardened
      { service := "My_Service", ns := "production", lines := 100, since := "1h" }).isError
      = true :=
  ⟨by decide, by decide, by decide, by decide⟩

/-- C1 (amended): for the hardened `fetch_logs` handler, a `since` that does
not match `^[0-9]+(h|m|s)$` always yields an error result with kubectl not
invoked; a matching `since` proceeds to invoke kubectl with `--since` set to
that value provided `service` and `namespace` also pass `K8S_NAME_PATTERN`.
The DevOps example's `fetch_logs` performs no validation and never returns an
error before invoking kubectl. -/
theorem fetchLogs_since_validation (a : FetchLogsArgs) :
    (durationPattern a.since = false → ∃ m, fetchLogsHardened a = .error m) ∧
    (durationPattern a.since = true → k8sNamePattern a.service = true →
      k8sNamePattern a.ns = true →
      fetchLogsHardened a = .argv "kubectl"
        ["logs", "-l", "app=" ++ a.service, "-n", a.ns,
         "--tail=" ++ toString (max 1 (min 1000 ⌊a.lines⌋)), "--since=" ++ a.since]) ∧
    (fetchLogsDevops a).isError = false := by
  refine ⟨?_, ?_, rfl⟩
  · intro h
    unfold fetchLogsHardened
    by_cases hs : k8sNamePattern a.service <;> by_cases hn : k8sNamePattern a.ns <;>
      simp [hs, hn, h]
  · intro h hs hn
    unfold fetchLogsHardened
    simp [h, hs, hn]

/-- C1 witness: `99x` is rejected by the hardened handler; `30m` with valid
service and namespace reaches kubectl with `--since=30m`. -/
theorem fetchLogs_since_validation_witness :
    (∃ m, fetchLogsHardened ⟨"api", "production", 100, "99x"⟩ = .error m) ∧
    fetchLogsHardened ⟨"api", "production", 250, "30m"⟩ =
      .argv "kubectl" ["logs", "-l", "app=api", "-n", "production", "--tail=250", "--since=30m"] ∧
    (fetchLogsDevops ⟨"api", "production", 100, "30m"⟩).isError = false := by
  refine ⟨(fetchLogs_since_validation ⟨"api", "production", 100, "99x"⟩).1 (by decide), ?_,
          (fetchLogs_since_validation ⟨"api", "production", 100, "30m"⟩).2.2⟩
  have h := (fetchLogs_since_validation ⟨"api", "production", 250, "30m"⟩).2.1
    (by decide) (by decide) (by decide)
  have hfloor : (⌊(250 : ℚ)⌋ : ℤ) = 250 := by norm_num
  rw [hfloor] at h
  have hclamp : (max 1 (min 1000 (250 : ℤ))) = 250 := by
    rw [min_eq_right (by norm_num : (250 : ℤ) ≤ 1000),
        max_eq_right (by norm_num : (1 : ℤ) ≤ 250)]
  rw [hclamp] at h
  exact h

/-- C4 counterexample: the DevOps example's `run_kubectl` checks only string
prefixes, so the command `getfoo secrets`, whose leading verb `getfoo` is not
in the allow-list, still reaches kubectl. -/
theorem runKubectl_verb_claim_counterexample :
    leadingVerb "getfoo secrets" = "getfoo" ∧
    ALLOWED_KUBECTL_PREFIXES.contains "getfoo" = false ∧
    runKubectlDevops "getfoo secrets" = .shell "kubectl getfoo secrets" :=
  ⟨by decide, by decide, by decide⟩

/-- C4 (amended): the hardened `run_kubectl` compares the first
whitespace-delimited token of the command for equality against the allow-list
get, describe, logs, top, rollout: any command whose leading verb is not in the
list yields an error result with kubectl never invoked, and every command that
reaches kubectl has an allow-listed leading verb. The DevOps example's
`run_kubectl` instead reaches kubectl exactly when the trimmed command merely
*starts with* one of those strings. -/
theorem runKubectl_verb_allowlist (command : String) :
    (ALLOWED_KUBECTL_SUBCOMMANDS.any (fun p => leadingVerb command == p) = false →
      ∃ m, runKubectlHardened command = .error m) ∧
    (∀ f args, runKubectlHardened command = .argv f args →
      f = "kubectl" ∧ args = splitArgs command ∧
      ALLOWED_KUBECTL_SUBCOMMANDS.any (fun p => leadingVerb command == p) = true) ∧
    ((runKubectlDevops command).isError = false ↔
      ALLOWED_KUBECTL_PREFIXES.any (fun p => jsStartsWith (jsTrim command) p) = true) := by
  refine ⟨?_, ?_, ?_⟩
  · intro h
    rw [leadingVerb] at h
    simp only [runKubectlHardened]
    by_cases he : splitArgs command = []
    · rw [if_pos he]
      exact ⟨_, rfl⟩
    · rw [if_neg he, h]
      exact ⟨_, rfl⟩
  · intro f args heq
    rw [leadingVerb]
    simp only [runKubectlHardened] at heq
    by_cases he : splitArgs command = []
    · rw [if_pos he] at heq
      cases heq
    · rw [if_neg he] at heq
      by_cases ha :
        (ALLOWED_KUBECTL_SUBCOMMANDS.any fun p => (splitArgs command).headD "" == p) = true
      · rw [ha] at heq
        simp only [Bool.not_true, Bool.false_eq_true, if_false, ExecOutcome.argv.injEq] at heq
        exact ⟨heq.1.symm, heq.2.symm, ha⟩
      · have ha' : (ALLOWED_KUBECTL_SUBCOMMANDS.any fun p => (splitArgs command).headD "" == p)
            = false := Bool.eq_false_iff.mpr ha
        rw [ha'] at heq
        cases heq
  · simp only [runKubectlDevops]
    by_cases hp : (ALLOWED_KUBECTL_PREFIXES.any fun p => jsStartsWith (jsTrim command) p) = true
    · rw [hp]
      simp [ExecOutcome.isError, hp]
    · have hp' : (ALLOWED_KUBECTL_PREFIXES.any fun p => jsStartsWith (jsTrim command) p)
          = false := by
        simpa using hp
      rw [hp']
      simp [ExecOutcome.isError, hp']

/-- C4 witness: `delete pods` is rejected by the hardened handler; `get pods`
reaches kubectl and its leading verb is allow-listed. -/
theorem runKubectl_verb_allowlist_witness :
    (∃ m, runKubectlHardened "delete pods" = .error m) ∧
    ("kubectl" = "kubectl" ∧ ["get", "pods"] = splitArgs "get pods" ∧
      ALLOWED_KUBECTL_SUBCOMMANDS.any (fun p => leadingVerb "get pods" == p) = true) :=
  ⟨(runKubectl_verb_allowlist "delete pods").1 (by decide),
   (runKubectl_verb_allowlist "get pods").2.1 "kubectl" ["get", "pods"] (by decide)⟩

/-- C5 counterexample: the DevOps example's `fetch_logs` passes the
non-matching service name `Bad_Svc` straight to kubectl; and the hardened
handler rejects a call whose service (`api`) matches `K8S_NAME_PATTERN` when
the duration is invalid, so a matching service string alone is not accepted. -/
theorem fetchLogs_name_claim_counterexample :
    k8sNamePattern "Bad_Svc" = false ∧
    fetchLogsDevops { service := "Bad_Svc", ns := "production", lines := 100, since := "1h" } =
      .shell "kubectl logs -l app=Bad_Svc -n production --tail=100 --since=1h" ∧
    k8sNamePattern "api" = true ∧
    (fetchLogsHardened
      { service := "api", ns := "production", lines := 100, since := "zzz" }).isError = true :=
  ⟨by decide, by decide, by decide, by decide⟩

/-- C5 (amended): for the hardened `fetch_logs` handler, a `service` failing
`^[a-z0-9]([a-z0-9-]*[a-z0-9])?$` yields the service-name error, a `namespace`
failing it yields an error result, and in both cases kubectl is not invoked;
when both match and `since` passes the duration check, the values are passed
to kubectl. The DevOps example's `fetch_logs` validates nothing and never
errors before invoking kubectl. -/
theorem fetchLogs_name_validation (a : FetchLogsArgs) :
    (k8sNamePattern a.service = false →
      fetchLogsHardened a =
        .error "Invalid service name. Use lowercase alphanumeric characters and hyphens only.") ∧
    (k8sNamePattern a.ns = false → ∃ m, fetchLogsHardened a = .error m) ∧
    (k8sNamePattern a.service = true → k8sNamePattern a.ns = true →
      durationPattern a.since = true →
      fetchLogsHardened a = .argv "kubectl"
        ["logs", "-l", "app=" ++ a.service, "-n", a.ns,
         "--tail=" ++ toString (max 1 (min 1000 ⌊a.lines⌋)), "--since=" ++ a.since]) ∧
    (fetchLogsDevops a).isError = false := by
  refine ⟨?_, ?_, ?_, rfl⟩
  · intro h
    unfold fetchLogsHardened
    simp [h]
  · intro h
    unfold fetchLogsHardened
    by_cases hs : k8sNamePattern a.service <;> simp [hs, h]
  · intro hs hn hd
    unfold fetchLogsHardened
    simp [hs, hn, hd]

/-- C5 witness: `Bad-` (trailing hyphen) is rejected as service and as
namespace; `web`/`staging`/`5m` reaches kubectl. -/
theorem fetchLogs_name_validation_witness :
    fetchLogsHardened ⟨"Bad-", "production", 100, "1h"⟩ =
      .error "Invalid service name. Use lowercase alphanumeric characters and hyphens only." ∧
    (∃ m, fetchLogsHardened ⟨"api", "Bad-", 100, "1h"⟩ = .error m) ∧
    fetchLogsHardened ⟨"web", "staging", 100, "5m"⟩ =
      .argv "kubectl" ["logs", "-l", "app=web", "-n", "staging", "--tail=100", "--since=5m"] := by
  refine ⟨(fetchLogs_name_validation ⟨"Bad-", "production", 100, "1h"⟩).1 (by decide),
          (fetchLogs_name_validation ⟨"api", "Bad-", 100, "1h"⟩).2.1 (by decide), ?_⟩
  have h := (fetchLogs_name_validation ⟨"web", "staging", 100, "5m"⟩).2.2.1
    (by decide) (by decide) (by decide)
  have hfloor : (⌊(100 : ℚ)⌋ : ℤ) = 100 := by norm_num
  rw [hfloor] at h
  have hclamp : (max 1 (min 1000 (100 : ℤ))) = 100 := by
    rw [min_eq_right (by norm_num : (100 : ℤ) ≤ 1000),
        max_eq_right (by norm_num : (1 : ℤ) ≤ 100)]
  rw [hclamp] at h
  exact h

end CopilotSdk

namespace CopilotSdk

/-- C2: the `load_csv` handler rejects, with an error result and before any
file read, every absolute path, every path containing `..`, and every path
without a case-insensitive `.csv` suffix; and whenever it reaches the file
read, the path read is the one resolved against the resolved data directory
(`DATA_DIR` defaulting to the working directory) and lies within that
directory. By contraposition of the second conjunct, a resolution escaping
the directory yields an error result before any read. -/
theorem loadCsv_path_containment (file_path : String) (env : LoadCsvEnv) :
    ((isAbsolutePath file_path || jsIncludes file_path ".."
        || !(jsEndsWith (jsToLower file_path) ".csv")) = true →
      ∃ m, loadCsv file_path env = .error m) ∧
    (∀ p, loadCsv file_path env = .readCsv p →
      p = posixResolve (posixResolve env.cwd (env.dataDirEnv.getD env.cwd)) file_path ∧
      (jsStartsWith p (posixResolve env.cwd (env.dataDirEnv.getD env.cwd) ++ pathSep) = true ∨
        p = posixResolve env.cwd (env.dataDirEnv.getD env.cwd))) := by
  constructor
  · intro h
    simp only [loadCsv]
    by_cases h1 : (isAbsolutePath file_path || jsIncludes file_path "..") = true
    · rw [if_pos h1]
      exact ⟨_, rfl⟩
    · have h1' : (isAbsolutePath file_path || jsIncludes file_path "..") = false :=
        Bool.eq_false_iff.mpr h1
      have hC : jsEndsWith (jsToLower file_path) ".csv" = false := by
        rw [h1', Bool.false_or] at h
        simpa using h
      rw [if_neg h1, hC]
      exact ⟨_, rfl⟩
  · intro p hp
    simp only [loadCsv] at hp
    by_cases h1 : (isAbsolutePath file_path || jsIncludes file_path "..") = true
    · rw [if_pos h1] at hp
      cases hp
    · rw [if_neg h1] at hp
      by_cases h2 : jsEndsWith (jsToLower file_path) ".csv" = true
      · rw [h2] at hp
        simp only [Bool.not_true, Bool.false_eq_true, if_false] at hp
        by_cases h3 :
          (!(jsStartsWith (posixResolve (posixResolve env.cwd (env.dataDirEnv.getD env.cwd))
                file_path) (posixResolve env.cwd (env.dataDirEnv.getD env.cwd) ++ pathSep)) &&
            (posixResolve (posixResolve env.cwd (env.dataDirEnv.getD env.cwd)) file_path !=
              posixResolve env.cwd (env.dataDirEnv.getD env.cwd))) = true
        · rw [if_pos h3] at hp
          cases hp
        · rw [if_neg h3] at hp
          cases hp
          have h3' := Bool.eq_false_iff.mpr h3
          rw [Bool.and_eq_false_iff] at h3'
          refine ⟨rfl, ?_⟩
          rcases h3' with h3' | h3'
          · left
            simpa using h3'
          · right
            simpa [bne] using h3'
      · have h2' : jsEndsWith (jsToLower file_path) ".csv" = false := Bool.eq_false_iff.mpr h2
        rw [h2'] at hp
        simp only [Bool.not_false, if_true] at hp
        cases hp

/-- C2 witness: `../secrets.csv` is rejected; `reports/q1.csv` under
`DATA_DIR=/srv/data` (cwd `/srv`) is read at `/srv/data/reports/q1.csv`,
inside the data directory. -/
theorem loadCsv_path_containment_witness :
    (∃ m, loadCsv "../secrets.csv" ⟨some "/srv/data", "/srv"⟩ = .error m) ∧
    ("/srv/data/reports/q1.csv" =
        posixResolve (posixResolve "/srv" ((some "/srv/data").getD "/srv")) "reports/q1.csv" ∧
      (jsStartsWith "/srv/data/reports/q1.csv"
          (posixResolve "/srv" ((some "/srv/data").getD "/srv") ++ pathSep) = true ∨
        "/srv/data/reports/q1.csv" = posixResolve "/srv" ((some "/srv/data").getD "/srv"))) :=
  ⟨(loadCsv_path_containment "../secrets.csv" ⟨some "/srv/data", "/srv"⟩).1 (by decide),
   (loadCsv_path_containment "reports/q1.csv" ⟨some "/srv/data", "/srv"⟩).2
     "/srv/data/reports/q1.csv" (by decide)⟩

/-- C10 (implicit): for every `lines` argument to the hardened `fetch_logs`
handler that passes validation, the `--tail` value passed to kubectl equals
`min(1000, max(1, ⌊lines⌋))` — always an integer between 1 and 1000 regardless
of the caller-supplied value. (The source computes
`Math.max(1, Math.min(1000, Math.floor(lines)))`, the same clamp.) -/
theorem fetchLogs_tail_clamp (a : FetchLogsArgs)
    (hs : k8sNamePattern a.service = true) (hn : k8sNamePattern a.ns = true)
    (hd : durationPattern a.since = true) :
    fetchLogsHardened a = .argv "kubectl"
      ["logs", "-l", "app=" ++ a.service, "-n", a.ns,
       "--tail=" ++ toString (min 1000 (max 1 ⌊a.lines⌋)), "--since=" ++ a.since] ∧
    1 ≤ min 1000 (max 1 ⌊a.lines⌋) ∧ min 1000 (max 1 ⌊a.lines⌋) ≤ 1000 := by
  have hcomm : (max 1 (min 1000 ⌊a.lines⌋) : ℤ) = min 1000 (max 1 ⌊a.lines⌋) := by
    rw [max_min_distrib_left, max_eq_right (by norm_num : (1 : ℤ) ≤ 1000)]
  refine ⟨?_, le_min (by norm_num) (le_max_left _ _), min_le_left _ _⟩
  unfold fetchLogsHardened
  rw [← hcomm]
  simp [hs, hn, hd]

/-- C10 witness: `lines = 2500` is clamped to a `--tail` of 1000. -/
theorem fetchLogs_tail_clamp_witness :
    fetchLogsHardened ⟨"api", "production", 2500, "1h"⟩ =
      .argv "kubectl" ["logs", "-l", "app=api", "-n", "production", "--tail=1000", "--since=1h"] ∧
    (1 : ℤ) ≤ 1000 ∧ (1000 : ℤ) ≤ 1000 := by
  have h := fetchLogs_tail_clamp ⟨"api", "production", 2500, "1h"⟩
    (by decide) (by decide) (by decide)
  have hfloor : (⌊(2500 : ℚ)⌋ : ℤ) = 2500 := by norm_num
  rw [hfloor] at h
  have hclamp : (min 1000 (max 1 (2500 : ℤ))) = 1000 := by
    rw [max_eq_right (by norm_num : (1 : ℤ) ≤ 2500),
        min_eq_left (by norm_num : (1000 : ℤ) ≤ 2500)]
  rw [hclamp] at h
  exact h

end CopilotSdk

namespace CopilotSdk

/-- C7: every validation-failure path of every example tool handler — a
non-SELECT/non-WITH or semicolon-bearing SQL query, an invalid csv path, a
disallowed kubectl verb (in both handler variants), an invalid service name,
namespace or duration, and an empty stats array — produces a structured error
result. Each handler is embedded as a total function into an outcome type
whose only failure constructor is the structured error, so no validation
failure is a thrown exception. -/
theorem validation_failures_return_error_results :
    (∀ sql dbUrl, ((jsStartsWith (jsToUpper (jsTrim sql)) "SELECT" = false ∧
        jsStartsWith (jsToUpper (jsTrim sql)) "WITH" = false) ∨ jsIncludes sql ";" = true) →
      ∃ m, runSqlQuery sql dbUrl = .error m) ∧
    (∀ fp env, (isAbsolutePath fp || jsIncludes fp ".."
        || !(jsEndsWith (jsToLower fp) ".csv")) = true →
      ∃ m, loadCsv fp env = .error m) ∧
    (∀ cmd, (ALLOWED_KUBECTL_PREFIXES.any fun p => jsStartsWith (jsTrim cmd) p) = false →
      ∃ m, runKubectlDevops cmd = .error m) ∧
    (∀ cmd, (ALLOWED_KUBECTL_SUBCOMMANDS.any fun p => leadingVerb cmd == p) = false →
      ∃ m, runKubectlHardened cmd = .error m) ∧
    (∀ a : FetchLogsArgs, (k8sNamePattern a.service = false ∨ k8sNamePattern a.ns = false ∨
        durationPattern a.since = false) → ∃ m, fetchLogsHardened a = .error m) ∧
    (∀ c, computeStats [] c = .error "Empty array") := by
  refine ⟨?_, ?_, ?_, ?_, ?_, fun c => rfl⟩
  · intro sql dbUrl h
    rcases h with ⟨h1, h2⟩ | hsemi
    · exact ⟨"Only SELECT queries are permitted", by simp [runSqlQuery, h1, h2]⟩
    · by_cases h1 : jsStartsWith (jsToUpper (jsTrim sql)) "SELECT" = true <;>
        by_cases h2 : jsStartsWith (jsToUpper (jsTrim sql)) "WITH" = true <;>
        simp [runSqlQuery, h1, h2, hsemi]
  · intro fp env h
    simp only [loadCsv]
    by_cases h1 : (isAbsolutePath fp || jsIncludes fp "..") = true
    · rw [if_pos h1]
      exact ⟨_, rfl⟩
    · have h1' : (isAbsolutePath fp || jsIncludes fp "..") = false := Bool.eq_false_iff.mpr h1
      have hC : jsEndsWith (jsToLower fp) ".csv" = false := by
        rw [h1', Bool.false_or] at h
        simpa using h
      rw [if_neg h1, hC]
      exact ⟨_, rfl⟩
  · intro cmd h
    simp only [runKubectlDevops]
    rw [h]
    exact ⟨_, rfl⟩
  · intro cmd h
    rw [leadingVerb] at h
    simp only [runKubectlHardened]
    by_cases he : splitArgs cmd = []
    · rw [if_pos he]
      exact ⟨_, rfl⟩
    · rw [if_neg he, h]
      exact ⟨_, rfl⟩
  · intro a h
    rcases h with h | h | h
    · exact ⟨"Invalid service name. Use lowercase alphanumeric characters and hyphens only.",
        by simp [fetchLogsHardened, h]⟩
    · by_cases hs : k8sNamePattern a.service <;> simp [fetchLogsHardened, hs, h]
    · by_cases hs : k8sNamePattern a.service <;> by_cases hn : k8sNamePattern a.ns <;>
        simp [fetchLogsHardened, hs, hn, h]

/-- C7 witness: one concrete failing input per validation path, each yielding
a structured error result. -/
theorem validation_failures_return_error_results_witness :
    (∃ m, runSqlQuery "DROP TABLE t" none = .error m) ∧
    (∃ m, loadCsv "/abs.csv" ⟨none, "/srv"⟩ = .error m) ∧
    (∃ m, runKubectlDevops "apply -f x.yaml" = .error m) ∧
    (∃ m, runKubectlHardened "apply -f x.yaml" = .error m) ∧
    (∃ m, fetchLogsHardened ⟨"UPPER", "production", 100, "1h"⟩ = .error m) ∧
    computeStats [] "value" = .error "Empty array" :=
  ⟨validation_failures_return_error_results.1 "DROP TABLE t" none (Or.inl ⟨by decide, by decide⟩),
   validation_failures_return_error_results.2.1 "/abs.csv" ⟨none, "/srv"⟩ (by decide),
   validation_failures_return_error_results.2.2.1 "apply -f x.yaml" (by decide),
   validation_failures_return_error_results.2.2.2.1 "apply -f x.yaml" (by decide),
   validation_failures_return_error_results.2.2.2.2.1 ⟨"UPPER", "production", 100, "1h"⟩
     (Or.inl (by decide)),
   validation_failures_return_error_results.2.2.2.2.2 "value"⟩

end CopilotSdk
